import Mathlib

/-!
Verification development for the `label-scripts` repository.

The repository holds two Python scripts:
* `digikey/digi-scrape.py` (pipeline A): reads a CSV of part queries, calls a
  part-lookup service per row, classifies the returned candidate records
  against the query, and writes one output row per processed input row.
* `lcsc-labels.py` (pipeline B): reformats a marketplace CSV export, splitting
  a combined specification string into discrete fields by component type.

This file shallowly embeds the row-level logic of both scripts: Python strings
become Lean `String` (with helper functions mirroring `str.lower`,
`str.strip`, `str.split`, `str.isdigit`, the `in` substring operator and
`int()` on digit strings), candidate dictionaries become structures whose
optional keys are `Option String`, and fallible code returns `Except`.
-/

/-! ## Python string primitives -/

/-- Whitespace characters recognised by Python's `str.strip` / `str.split`. -/
def pyIsSpace (c : Char) : Bool :=
  c == ' ' || c == '\t' || c == '\n' || c == '\r' || c == '\x0b' || c == '\x0c'

/-- Python `s.lower()` (ASCII case folding). -/
def pyLower (s : String) : String :=
  ⟨s.data.map Char.toLower⟩

/-- Python `s.strip()`: drop leading and trailing whitespace. -/
def pyStrip (s : String) : String :=
  ⟨((s.data.dropWhile pyIsSpace).reverse.dropWhile pyIsSpace).reverse⟩

/-- `listStarts needle hay`: `needle` is a leading run of `hay`. -/
def listStarts : List Char → List Char → Bool
  | [], _ => true
  | _ :: _, [] => false
  | a :: as, b :: bs => a == b && listStarts as bs

/-- `listHasRun needle hay`: `needle` occurs contiguously inside `hay`. -/
def listHasRun (needle : List Char) : List Char → Bool
  | [] => needle.isEmpty
  | b :: bs => listStarts needle (b :: bs) || listHasRun needle bs

/-- Python's `needle in hay` on strings: contiguous substring test. -/
def pyIn (needle hay : String) : Bool :=
  listHasRun needle.data hay.data

/-- Python `s.isdigit()` restricted to ASCII: non-empty and all decimal digits. -/
def pyIsDigit (s : String) : Bool :=
  !s.isEmpty && s.data.all Char.isDigit

/-- Python `int(s)` on a string of decimal digits. -/
def pyToNat (s : String) : Nat :=
  s.data.foldl (fun n c => 10 * n + (c.toNat - 48)) 0

/-- Helper for `pySplit`: accumulate the current token (reversed) while
scanning; whitespace runs separate tokens and produce no empty tokens. -/
def pySplitAux : List Char → List Char → List String
  | [], acc => if acc.isEmpty then [] else [⟨acc.reverse⟩]
  | c :: cs, acc =>
    if pyIsSpace c then
      if acc.isEmpty then pySplitAux cs []
      else (⟨acc.reverse⟩ : String) :: pySplitAux cs []
    else pySplitAux cs (c :: acc)

/-- Python `s.split()` with no argument: split on runs of whitespace,
discarding leading/trailing whitespace and empty tokens. -/
def pySplit (s : String) : List String :=
  pySplitAux s.data []

/-! ## Pipeline A data model (`digi-scrape.py`)

A candidate record returned by the lookup service.  Keys the script reads
via `dict.get` with a default are `Option String`; keys it subscripts
directly (so their presence is assumed on the selected record) are plain
`String`. -/

/-- One entry of a candidate's parameter list: the `'Parameter'` (name) and
`'Value'` keys, each possibly absent, read via `dict.get` in the script. -/
structure PartParameter where
  name : Option String
  value : Option String
deriving DecidableEq, Repr

/-- A candidate record from the lookup service (`Parts` array element). -/
structure PartRecord where
  digiKeyPartNumber : String
  manufacturerPartNumber : Option String
  manufacturer : String
  productDescription : String
  primaryDatasheet : Option String
  parameters : List PartParameter
deriving DecidableEq, Repr

/-- Default record used only to give `List.getD` a value at indices the
guards have already proved in range. -/
def dummyPart : PartRecord :=
  { digiKeyPartNumber := "", manufacturerPartNumber := none,
    manufacturer := "", productDescription := "", primaryDatasheet := none,
    parameters := [] }

/-! ## `get_footprint` -/

/-- `get_footprint` from `digi-scrape.py`:
scan the parameter list; return the `Value` (default `"N/A"`) of the first
entry whose lowercased `Parameter` name contains `"case"`, `"package"` or
`"footprint"`; return `"N/A"` if none does. -/
def get_footprint : List PartParameter → String
  | [] => "N/A"
  | p :: ps =>
    let param_name := pyLower (p.name.getD "")
    if pyIn "case" param_name || pyIn "package" param_name
        || pyIn "footprint" param_name then
      p.value.getD "N/A"
    else get_footprint ps

/-- The qualifying test of `get_footprint`, factored out for statements. -/
def isFootprintParam (p : PartParameter) : Bool :=
  let param_name := pyLower (p.name.getD "")
  pyIn "case" param_name || pyIn "package" param_name
    || pyIn "footprint" param_name

/-! ## `search_part` error handling

`search_part` performs the HTTP call; its behaviour relevant to
classification is: a non-200 status or a raised exception yields
`{"Parts": []}`, a 200 response yields its parts list.  The external
response is modelled as an oracle value. -/

/-- Outcome of the HTTP exchange in `search_part`: either a response with a
status code and decoded parts list, or an exception raised during the call. -/
inductive SearchResult where
  | response (status : Nat) (parts : List PartRecord)
  | exn
deriving DecidableEq, Repr

/-- `search_part` from `digi-scrape.py`, reduced to its data flow: a non-200
status returns `{"Parts": []}`, an exception returns `{"Parts": []}`, else
the parts of the 200 response. -/
def search_part : SearchResult → List PartRecord
  | .response status parts => if status == 200 then parts else []
  | .exn => []

/-! ## Match classification (`process_csv` lines 129–146) -/

/-- The exact-match test of the classification loop:
`manu_part.lower() == original_part.lower()` where `manu_part` is
`part.get('ManufacturerPartNumber', '')`. -/
def isExactMatch (q : String) (p : PartRecord) : Bool :=
  pyLower (p.manufacturerPartNumber.getD "") == pyLower q

/-- The close-match test: not an exact equal, and
`original_part.lower() in manu_part.lower()`. -/
def isCloseMatch (q : String) (p : PartRecord) : Bool :=
  !isExactMatch q p
    && pyIn (pyLower q) (pyLower (p.manufacturerPartNumber.getD ""))

/-- One iteration of the classification loop over `parts`: an exact equal
overwrites `exact_match`; otherwise a substring containment appends to
`close_matches`; otherwise the state is unchanged. -/
def classifyStep (q : String) (st : Option PartRecord × List PartRecord) (part : PartRecord) :
    Option PartRecord × List PartRecord :=
  let manu_part := part.manufacturerPartNumber.getD ""
  if pyLower manu_part == pyLower q then (some part, st.2)
  else if pyIn (pyLower q) (pyLower manu_part) then (st.1, st.2 ++ [part])
  else st

/-- The classification loop of `process_csv`: fold `classifyStep` over the
service's parts starting from `exact_match = None`, `close_matches = []`. -/
def classify (q : String) (parts : List PartRecord) : Option PartRecord × List PartRecord :=
  parts.foldl (classifyStep q) (none, [])

/-! ## Row disposition (`process_csv` lines 148–189) -/

/-- Output row built from a selected record:
`[original_part, outcome, DigiKeyPartNumber, Manufacturer.Value, footprint,
PrimaryDatasheet or 'N/A', ProductDescription]`. -/
def partRow (q outcome : String) (p : PartRecord) : List String :=
  [q, outcome, p.digiKeyPartNumber, p.manufacturer,
   get_footprint p.parameters, p.primaryDatasheet.getD "N/A",
   p.productDescription]

/-- Output row with no selected record: `[q, outcome, '', '', '', '', '']`. -/
def noRecordRow (q outcome : String) : List String :=
  [q, outcome, "", "", "", "", ""]

/-- The per-row disposition of `process_csv` after a successful lookup:
classify, then (1) an exact match writes an `'Exact'` row; (2) else a
non-empty close set consults the decision-maker's `selection` string and
writes a `'Manual Selection'` row for a valid 1-based index into the full
close set, or a `'No selection'` row otherwise; (3) else a `'No match'` row. -/
def processRow (q : String) (parts : List PartRecord) (selection : String) :
    List String :=
  match classify q parts with
  | (some exact_match, _) => partRow q "Exact" exact_match
  | (none, close_matches) =>
    if !close_matches.isEmpty then
      if pyIsDigit selection && decide (0 < pyToNat selection)
          && decide (pyToNat selection ≤ close_matches.length) then
        partRow q "Manual Selection"
          (close_matches.getD (pyToNat selection - 1) dummyPart)
      else noRecordRow q "No selection"
    else noRecordRow q "No match"

/-! ## Whole-file loop (`process_csv` lines 114–199)

Each input row is paired with the behaviour of the external world while that
row is processed: either the lookup result together with the decision-maker's
reply, or an exception raised anywhere inside the row's `try` block. -/

/-- External events during one row: a completed lookup (with the
decision-maker's reply, consulted only when needed), or a failure raised
while processing the row, caught by the row-level `except`. -/
inductive RowEvent where
  | result (sr : SearchResult) (selection : String)
  | raise
deriving Repr

/-- The guard `if not row or not row[0].strip(): continue`. -/
def rowSkipped (row : List String) : Bool :=
  row.isEmpty || (pyStrip (row.headD "")).isEmpty

/-- Output row produced for one non-skipped input row: the disposition of the
lookup result, or the `'Error'` marker row written by the `except` handler. -/
def rowOutput (q : String) : RowEvent → List String
  | .result sr selection => processRow q (search_part sr) selection
  | .raise => noRecordRow q "Error"

/-- The row loop of `process_csv`: skip rows failing the guard, otherwise
emit exactly one output row (header row not included here). -/
def process_csv : List (List String × RowEvent) → List (List String)
  | [] => []
  | (row, ev) :: rest =>
    if rowSkipped row then process_csv rest
    else rowOutput (pyStrip (row.headD "")) ev :: process_csv rest

/-! ## Pipeline B (`lcsc-labels.py`) -/

/-- Python-level failures that `parse_data` can raise. -/
inductive PyErr where
  | indexError
  | typeError
deriving DecidableEq, Repr

/-- Python list subscription: `l[i]`, raising `IndexError` out of range. -/
def pyGet (l : List String) (i : Nat) : Except PyErr String :=
  match l.get? i with
  | some v => .ok v
  | none => .error .indexError

/-- Capacitor header row of `parse_data`. -/
def capHeader : List String :=
  ["LCSC Number", "MPN", "Capacitance", "Voltage", "Tolerance", "Dielectric",
   "Size"]

/-- Resistor header row of `parse_data`. -/
def resHeader : List String :=
  ["LCSC Number", "MPN", "Resistance", "Power", "Tolerance", "Size"]

/-- One capacitor line of `parse_data`:
`stat = line[5].split()` then
`temp = [line[0], line[1], stat[1], stat[0], stat[3], stat[2], line[4]]`,
with subexpressions evaluated in Python's left-to-right order. -/
def parseLineC (line : List String) : Except PyErr (List String) :=
  (pyGet line 5).bind fun f5 =>
    let stat := pySplit f5
    (pyGet line 0).bind fun f0 =>
    (pyGet line 1).bind fun f1 =>
    (pyGet stat 1).bind fun s1 =>
    (pyGet stat 0).bind fun s0 =>
    (pyGet stat 3).bind fun s3 =>
    (pyGet stat 2).bind fun s2 =>
    (pyGet line 4).bind fun f4 =>
    Except.ok [f0, f1, s1, s0, s3, s2, f4]

/-- One resistor line of `parse_data`:
`stat = line[5].split` binds the *method object* (the call is missing), so
`line[5]` is evaluated (raising `IndexError` when absent) and then the first
subscription `stat[1]` — after `line[0]` and `line[1]` — raises `TypeError`,
because a bound method is not subscriptable. -/
def parseLineR (line : List String) : Except PyErr (List String) :=
  (pyGet line 5).bind fun _ =>
    (pyGet line 0).bind fun _ =>
    (pyGet line 1).bind fun _ =>
    Except.error PyErr.typeError

/-- The per-line loop of `parse_data`: transform each line in order; an
exception raised on any line propagates out (there is no handler in the
script), discarding all accumulated output. -/
def mapLines (f : List String → Except PyErr (List String)) :
    List (List String) → Except PyErr (List (List String))
  | [] => Except.ok []
  | line :: rest =>
    (f line).bind fun row =>
      (mapLines f rest).bind fun rows => Except.ok (row :: rows)

/-- `parse_data` from `lcsc-labels.py`: prepend the header for the component
type, then transform each line with the type's layout; any other
`component_type` yields the initial empty output list. -/
def parse_data (input_arr : List (List String)) (component_type : String) :
    Except PyErr (List (List String)) :=
  if component_type == "c" then
    (mapLines parseLineC input_arr).bind fun rows => Except.ok (capHeader :: rows)
  else if component_type == "r" then
    (mapLines parseLineR input_arr).bind fun rows => Except.ok (resHeader :: rows)
  else Except.ok []

/-! ## Helper lemmas -/

/-- The conditions of `classifyStep` coincide with `isExactMatch` and
`isCloseMatch`. -/
lemma classifyStep_eq (q : String) (acc : Option PartRecord × List PartRecord)
    (p : PartRecord) :
    classifyStep q acc p
      = if isExactMatch q p then (some p, acc.2)
        else if isCloseMatch q p then (acc.1, acc.2 ++ [p]) else acc := by
  by_cases h : (pyLower (p.manufacturerPartNumber.getD "") == pyLower q) = true
  · simp [classifyStep, isExactMatch, h]
  · simp [classifyStep, isExactMatch, isCloseMatch, h]

/-- The `exact_match` slot after the classification loop holds the last
exact equal scanned (the first found when scanning right-to-left), falling
back to the initial slot. -/
lemma classify_fst_acc (q : String) (parts : List PartRecord) :
    ∀ acc, (parts.foldl (classifyStep q) acc).1
      = (parts.reverse.find? (isExactMatch q)).or acc.1 := by
  induction parts with
  | nil => intro acc; simp
  | cons p ps ih =>
    intro acc
    rw [List.foldl_cons, ih, classifyStep_eq, List.reverse_cons,
      List.find?_append]
    by_cases h : isExactMatch q p = true
    · rw [if_pos h, List.find?_cons_of_pos _ h]
      cases ps.reverse.find? (isExactMatch q) <;> simp [Option.or]
    · rw [if_neg (by simp [h]), List.find?_cons_of_neg _ (by simp [h])]
      by_cases hc : isCloseMatch q p = true <;> simp [hc, Option.or_none]

/-- The `close_matches` list after the classification loop is the initial
list extended with the close matches of the scanned parts, in order. -/
lemma classify_snd_acc (q : String) (parts : List PartRecord) :
    ∀ acc, (parts.foldl (classifyStep q) acc).2
      = acc.2 ++ parts.filter (isCloseMatch q) := by
  induction parts with
  | nil => intro acc; simp
  | cons p ps ih =>
    intro acc
    rw [List.foldl_cons, ih, classifyStep_eq, List.filter_cons]
    by_cases h : isExactMatch q p = true
    · have hc : isCloseMatch q p = false := by simp [isCloseMatch, h]
      rw [if_pos h, hc]
      simp
    · by_cases hc : isCloseMatch q p = true
      · rw [if_neg h, if_pos hc, if_pos hc]
        simp
      · rw [if_neg h, if_neg hc, if_neg hc]

/-- `get_footprint` is determined by the first qualifying parameter. -/
lemma get_footprint_eq_find (ps : List PartParameter) :
    get_footprint ps
      = match ps.find? isFootprintParam with
        | some p => p.value.getD "N/A"
        | none => "N/A" := by
  induction ps with
  | nil => rfl
  | cons p ps ih =>
    by_cases h : isFootprintParam p = true
    · rw [List.find?_cons_of_pos _ h]
      have h' := h
      simp only [isFootprintParam] at h'
      simp only [get_footprint, h', if_true]
    · rw [List.find?_cons_of_neg _ h, ← ih]
      have h' : (pyIn "case" (pyLower (p.name.getD ""))
          || pyIn "package" (pyLower (p.name.getD ""))
          || pyIn "footprint" (pyLower (p.name.getD ""))) = false := by
        simpa [isFootprintParam] using h
      simp [get_footprint, h']

/-- The row loop distributes over list append. -/
lemma process_csv_append (l₁ l₂ : List (List String × RowEvent)) :
    process_csv (l₁ ++ l₂) = process_csv l₁ ++ process_csv l₂ := by
  induction l₁ with
  | nil => rfl
  | cons r rest ih =>
    obtain ⟨row, ev⟩ := r
    by_cases h : rowSkipped row = true <;> simp [process_csv, h, ih]

/-! ## Claim theorems -/

/-- Candidate with manufacturer part number `ABC123` (scenario of the
exact-match tie-break). -/
def partA : PartRecord :=
  { digiKeyPartNumber := "DK-A", manufacturerPartNumber := some "ABC123",
    manufacturer := "MfrA", productDescription := "descA",
    primaryDatasheet := none, parameters := [] }

/-- Candidate with manufacturer part number `abc123`, listed after `partA`. -/
def partB : PartRecord :=
  { digiKeyPartNumber := "DK-B", manufacturerPartNumber := some "abc123",
    manufacturer := "MfrB", productDescription := "descB",
    primaryDatasheet := none, parameters := [] }

/-- Claim C1, as stated, is false: with query `"ABC123"` and candidates
`[partA, partB]` whose manufacturer part numbers both equal the query
case-insensitively, the classifier selects the second record `partB`, not
the first (`partA`), and the emitted `Exact` row is the one for `partB`. -/
theorem c1_counterexample :
    (classify "ABC123" [partA, partB]).1 = some partB ∧
    partB ≠ partA ∧
    processRow "ABC123" [partA, partB] "" = partRow "ABC123" "Exact" partB ∧
    partRow "ABC123" "Exact" partB ≠ partRow "ABC123" "Exact" partA := by
  refine ⟨by decide, by decide, by decide, by decide⟩

/-- Claim C1 (amended): when at least one candidate's manufacturer part
number equals the query case-insensitively, the classifier selects the LAST
such record in the service's returned order (each later exact equal
overwrites the earlier), and the output row's outcome is `Exact`. -/
theorem c1_exact_last_wins (q selection : String) (parts : List PartRecord) :
    (classify q parts).1 = parts.reverse.find? (isExactMatch q) ∧
    (∀ p, parts.reverse.find? (isExactMatch q) = some p →
      processRow q parts selection = partRow q "Exact" p) := by
  have h1 : (classify q parts).1 = parts.reverse.find? (isExactMatch q) := by
    have h := classify_fst_acc q parts (none, [])
    simpa [classify, Option.or_none] using h
  refine ⟨h1, fun p hp => ?_⟩
  have h2 : classify q parts = (some p, (classify q parts).2) := by
    rw [← h1] at hp
    exact Prod.ext hp rfl
  rw [processRow, h2]

/-- Witness for `c1_exact_last_wins` at the scenario input: the last exact
equal `partB` is selected and its `Exact` row is emitted. -/
theorem c1_exact_last_wins_witness :
    (classify "ABC123" [partA, partB]).1
        = [partA, partB].reverse.find? (isExactMatch "ABC123") ∧
    processRow "ABC123" [partA, partB] "sel"
        = partRow "ABC123" "Exact" partB :=
  ⟨(c1_exact_last_wins "ABC123" "sel" [partA, partB]).1,
   (c1_exact_last_wins "ABC123" "sel" [partA, partB]).2 partB (by decide)⟩

/-- Claim C8: the close-match set consists exactly of the candidates whose
manufacturer part number contains the query case-insensitively without being
a case-insensitive equal, in the service's returned order (a filter of the
candidate list). -/
theorem c8_close_set (q : String) (parts : List PartRecord) :
    (classify q parts).2 = parts.filter (isCloseMatch q) := by
  have h := classify_snd_acc q parts (none, [])
  simpa [classify] using h

/-- Claim C6: footprint extraction returns the value of the first parameter
(in given order) whose name case-insensitively contains `"case"`,
`"package"` or `"footprint"`, and the literal `"N/A"` when no parameter
qualifies; later qualifying parameters are never consulted. -/
theorem c6_footprint_first_match (ps : List PartParameter) :
    ((∀ p ∈ ps, isFootprintParam p = false) → get_footprint ps = "N/A") ∧
    (∀ p v, ps.find? isFootprintParam = some p → p.value = some v →
      get_footprint ps = v) := by
  constructor
  · intro h
    rw [get_footprint_eq_find]
    have hn : ps.find? isFootprintParam = none := by
      rw [List.find?_eq_none]
      intro x hx
      simp [h x hx]
    rw [hn]
  · intro p v hfind hv
    rw [get_footprint_eq_find, hfind]
    simp [hv]

/-- Witness for `c6_footprint_first_match`: a list with no qualifying
parameter yields `"N/A"`; in a list whose first qualifying parameter is
`Package / Case ↦ 0603`, the value `"0603"` of that first qualifying entry
is returned even though a later entry also qualifies. -/
theorem c6_footprint_first_match_witness :
    get_footprint [⟨some "Resistance", some "10K"⟩] = "N/A" ∧
    get_footprint [⟨some "Resistance", some "10K"⟩,
      ⟨some "Package / Case", some "0603"⟩,
      ⟨some "Case", some "9999"⟩] = "0603" :=
  ⟨(c6_footprint_first_match [⟨some "Resistance", some "10K"⟩]).1 (by decide),
   (c6_footprint_first_match [⟨some "Resistance", some "10K"⟩,
      ⟨some "Package / Case", some "0603"⟩,
      ⟨some "Case", some "9999"⟩]).2
     ⟨some "Package / Case", some "0603"⟩ "0603" (by decide) rfl⟩

/-- Claim C10: when the first qualifying parameter has no `Value` key at
all, footprint extraction returns the literal `"N/A"` for that entry and
does not continue the scan to later qualifying parameters. -/
theorem c10_footprint_missing_value (ps : List PartParameter)
    (p : PartParameter) (hfind : ps.find? isFootprintParam = some p)
    (hval : p.value = none) :
    get_footprint ps = "N/A" := by
  rw [get_footprint_eq_find, hfind]
  simp [hval]

/-- Witness for `c10_footprint_missing_value`: the first qualifying entry
`Package Size` carries no value, so the result is `"N/A"` although a later
qualifying entry (`Case ↦ 0402`) has one. -/
theorem c10_footprint_missing_value_witness :
    get_footprint [⟨some "Package Size", none⟩, ⟨some "Case", some "0402"⟩]
      = "N/A" :=
  c10_footprint_missing_value
    [⟨some "Package Size", none⟩, ⟨some "Case", some "0402"⟩]
    ⟨some "Package Size", none⟩ (by decide) rfl

/-- Claim C2 evaluated on the code: the resistor branch of `parse_data`
binds the un-invoked `split` method, so subscripting it raises `TypeError`
for every resistor row — on a well-formed four-token specification string
just as on one with a missing token.  No malformed-specification condition
is ever reported and the path never runs to completion. -/
theorem c2_resistor_branch_crashes :
    parse_data [["L1", "MPN", "desc", "unit", "0402", "100mW 10K ohm 1%"]] "r"
      = Except.error PyErr.typeError ∧
    parse_data [["L1", "MPN", "desc", "unit", "0402", "100mW 10K"]] "r"
      = Except.error PyErr.typeError :=
  ⟨rfl, rfl⟩

/-- Claim C4: a capacitor row with distributor ID at position 0, MPN at
position 1, size at position 4 and a four-token specification string at
position 5 is emitted as
`[LcscNumber, MPN, token1, token0, token3, token2, Size]`, after the
capacitor header row. -/
theorem c4_capacitor_row (line : List String) (d m sz spec t0 t1 t2 t3 : String)
    (h0 : line.get? 0 = some d) (h1 : line.get? 1 = some m)
    (h4 : line.get? 4 = some sz) (h5 : line.get? 5 = some spec)
    (hsplit : pySplit spec = [t0, t1, t2, t3]) :
    parseLineC line = Except.ok [d, m, t1, t0, t3, t2, sz] ∧
    parse_data [line] "c"
      = Except.ok [capHeader, [d, m, t1, t0, t3, t2, sz]] := by
  have hline : parseLineC line = Except.ok [d, m, t1, t0, t3, t2, sz] := by
    have h0' := h0
    have h1' := h1
    have h4' := h4
    have h5' := h5
    simp only [List.get?_eq_getElem?] at h0' h1' h4' h5'
    simp [parseLineC, pyGet, h0', h1', h4', h5', hsplit, Except.bind]
  refine ⟨hline, ?_⟩
  simp [parse_data, mapLines, hline, Except.bind]

/-- Witness for `c4_capacitor_row` at the spec's scenario input. -/
theorem c4_capacitor_row_witness :
    parse_data [["LCSC1", "CAP-MPN", "desc", "unit", "0402",
      "16V 10uF X7R 10%"]] "c"
      = Except.ok [capHeader,
          ["LCSC1", "CAP-MPN", "10uF", "16V", "10%", "X7R", "0402"]] :=
  (c4_capacitor_row ["LCSC1", "CAP-MPN", "desc", "unit", "0402",
      "16V 10uF X7R 10%"] "LCSC1" "CAP-MPN" "0402" "16V 10uF X7R 10%"
      "16V" "10uF" "X7R" "10%" rfl rfl rfl rfl rfl).2

/-- Claim C3, as stated, is false: the input row `["", "X"]` is not a
genuinely blank line (its second field is non-empty), yet the row loop
skips it and emits no output row, because the skip guard tests only the
first field. -/
theorem c3_counterexample :
    process_csv [(["", "X"], RowEvent.raise)] = [] ∧
    ¬(∀ f ∈ ["", "X"], f = "") :=
  ⟨rfl, by decide⟩

/-- Claim C3 (amended): a row is skipped exactly when it is empty or its
first field strips to the empty string (even if later fields are
non-empty); every other input row produces exactly one output row — even a
failing one — so the output data-row count equals the number of input rows
whose first field is non-blank. -/
theorem c3_row_parity (rows : List (List String × RowEvent)) :
    process_csv rows
      = (rows.filter (fun r => !rowSkipped r.1)).map
          (fun r => rowOutput (pyStrip (r.1.headD "")) r.2) ∧
    (process_csv rows).length
      = (rows.filter (fun r => !rowSkipped r.1)).length := by
  have h : process_csv rows
      = (rows.filter (fun r => !rowSkipped r.1)).map
          (fun r => rowOutput (pyStrip (r.1.headD "")) r.2) := by
    induction rows with
    | nil => rfl
    | cons r rest ih =>
      obtain ⟨row, ev⟩ := r
      by_cases hs : rowSkipped row = true <;>
        simp [process_csv, hs, ih, List.filter_cons]
  exact ⟨h, by rw [h, List.length_map]⟩

/-- Claim C5: a lookup that raises, or answers with a non-success status,
or returns zero candidates, leaves the row with zero candidates; the row's
output is the `No match` row and the loop continues with the next rows
undisturbed. -/
theorem c5_lookup_failure (q selection : String) (r : SearchResult)
    (hfail : r = SearchResult.exn ∨
      ∃ s ps, r = SearchResult.response s ps ∧ (s ≠ 200 ∨ ps = [])) :
    search_part r = [] ∧
    processRow q (search_part r) selection = noRecordRow q "No match" ∧
    (∀ row rest, rowSkipped row = false →
      process_csv ((row, RowEvent.result r selection) :: rest)
        = processRow (pyStrip (row.headD "")) (search_part r) selection
            :: process_csv rest) := by
  have hempty : search_part r = [] := by
    rcases hfail with h | ⟨s, ps, h, hs | hps⟩
    · rw [h]; rfl
    · rw [h]
      have hb : (s == 200) = false := by simpa using hs
      simp [search_part, hb]
    · rw [h, hps]
      simp [search_part]
  refine ⟨hempty, ?_, ?_⟩
  · rw [hempty]; rfl
  · intro row rest hrow
    simp [process_csv, hrow, rowOutput]

/-- Witness for `c5_lookup_failure` at the spec's scenario: query `XYZ`,
the lookup raises, and the emitted row is `["XYZ", "No match", ...]`. -/
theorem c5_lookup_failure_witness :
    search_part SearchResult.exn = [] ∧
    processRow "XYZ" (search_part SearchResult.exn) ""
      = noRecordRow "XYZ" "No match" ∧
    process_csv [(["XYZ"], RowEvent.result SearchResult.exn "")]
      = processRow (pyStrip (["XYZ"].headD ""))
          (search_part SearchResult.exn) "" :: process_csv [] := by
  obtain ⟨h1, h2, h3⟩ :=
    c5_lookup_failure "XYZ" "" SearchResult.exn (Or.inl rfl)
  exact ⟨h1, h2, h3 ["XYZ"] [] (by decide)⟩

/-- Disposition of a row whose classification produced no exact match,
expressed through the close-match branch of `processRow`. -/
lemma processRow_none (q selection : String) (parts : List PartRecord)
    (cl : List PartRecord) (h : classify q parts = (none, cl)) :
    processRow q parts selection
      = if !cl.isEmpty then
          if pyIsDigit selection && decide (0 < pyToNat selection)
              && decide (pyToNat selection ≤ cl.length) then
            partRow q "Manual Selection"
              (cl.getD (pyToNat selection - 1) dummyPart)
          else noRecordRow q "No selection"
        else noRecordRow q "No match" := by
  rw [processRow, h]

/-- Candidate with manufacturer part number `R10`, a close match for the
query `R1`. -/
def partR10 : PartRecord :=
  { digiKeyPartNumber := "DK-R10", manufacturerPartNumber := some "R10",
    manufacturer := "MfrR", productDescription := "descR",
    primaryDatasheet := none, parameters := [] }

/-- Claim C7: with no exact match and a non-empty close-match set of size
`n`, a decision-maker reply that is a digit string denoting an index `i`
with `1 ≤ i ≤ n` (into the full close-match set) selects the `i`-th close
match and emits a `Manual Selection` row; any empty or otherwise invalid
reply emits the `No selection` row with no selected record. -/
theorem c7_manual_selection (q selection : String) (parts : List PartRecord)
    (hex : (classify q parts).1 = none)
    (hcl : (classify q parts).2 ≠ []) :
    (pyIsDigit selection = true → 0 < pyToNat selection →
      pyToNat selection ≤ (classify q parts).2.length →
      processRow q parts selection
        = partRow q "Manual Selection"
            ((classify q parts).2.getD (pyToNat selection - 1) dummyPart)) ∧
    (¬(pyIsDigit selection = true ∧ 0 < pyToNat selection ∧
        pyToNat selection ≤ (classify q parts).2.length) →
      processRow q parts selection = noRecordRow q "No selection") := by
  have hpair : classify q parts = (none, (classify q parts).2) :=
    Prod.ext hex rfl
  have hne : (classify q parts).2.isEmpty = false := by
    cases hcl2 : (classify q parts).2 with
    | nil => exact absurd hcl2 hcl
    | cons a l => rfl
  have hpr := processRow_none q selection parts ((classify q parts).2) hpair
  rw [hne] at hpr
  simp only [Bool.not_false, if_true] at hpr
  constructor
  · intro hd h0 hlen
    have hb : (pyIsDigit selection && decide (0 < pyToNat selection)
        && decide (pyToNat selection ≤ (classify q parts).2.length)) = true := by
      simp [hd, h0, hlen]
    rw [hpr, if_pos hb]
  · intro hnot
    have hb : (pyIsDigit selection && decide (0 < pyToNat selection)
        && decide (pyToNat selection ≤ (classify q parts).2.length)) = false := by
      cases hb' : (pyIsDigit selection && decide (0 < pyToNat selection)
          && decide (pyToNat selection ≤ (classify q parts).2.length)) with
      | false => rfl
      | true =>
        exact absurd
          (by simpa [Bool.and_eq_true, decide_eq_true_eq, and_assoc]
            using hb') hnot
    rw [hpr, if_neg (by simp [hb])]

/-- Witness for `c7_manual_selection`: query `R1` with the single close
match `partR10`; the reply `"1"` selects it, the empty reply yields the
`No selection` row. -/
theorem c7_manual_selection_witness :
    processRow "R1" [partR10] "1"
      = partRow "R1" "Manual Selection"
          ((classify "R1" [partR10]).2.getD (pyToNat "1" - 1) dummyPart) ∧
    processRow "R1" [partR10] "" = noRecordRow "R1" "No selection" := by
  have h1 := c7_manual_selection "R1" "1" [partR10] (by decide) (by decide)
  have h2 := c7_manual_selection "R1" "" [partR10] (by decide) (by decide)
  exact ⟨h1.1 (by decide) (by decide) (by decide), h2.2 (by decide)⟩

/-- Claim C9: a failure raised while processing a row is caught at the row
boundary and converted into the `[query, "Error", ...]` marker row; the
rows before and after the failing one are processed exactly as they would
be on their own, so the run never aborts. -/
theorem c9_error_row (pre post : List (List String × RowEvent))
    (row : List String) (h : rowSkipped row = false) :
    process_csv (pre ++ (row, RowEvent.raise) :: post)
      = process_csv pre
          ++ noRecordRow (pyStrip (row.headD "")) "Error"
            :: process_csv post := by
  rw [process_csv_append]
  simp [process_csv, h, rowOutput]

/-- Witness for `c9_error_row`: the failing row `["AAA"]` yields the
`Error` marker row and the following row is still processed. -/
theorem c9_error_row_witness :
    rowSkipped ["AAA"] = false ∧
    process_csv [(["AAA"], RowEvent.raise),
        (["BBB"], RowEvent.result SearchResult.exn "")]
      = process_csv []
          ++ noRecordRow (pyStrip (["AAA"].headD "")) "Error"
            :: process_csv [(["BBB"], RowEvent.result SearchResult.exn "")] :=
  ⟨by decide,
   c9_error_row [] [(["BBB"], RowEvent.result SearchResult.exn "")]
     ["AAA"] (by decide)⟩
